import Mathlib

/-!
Verification of the Hikari bytecode compiler and virtual machine
(src/opcodes.js, src/compiler/*, src/vm/*) against its specification.

The runtime value universe, the compiler-state operations, the instruction
handlers and the promise machinery are embedded shallowly below; each
definition mirrors the JavaScript source it is named after.  The value
stack and the call-frame stack are represented as lists whose HEAD is the
TOP of the stack; `stackBase` and upvalue locations are absolute indices
counted from the bottom, exactly as in the source.
-/

set_option maxRecDepth 8192

namespace Hikari

/-- A compiled function (`FunctionObject`, CompilerState.js).  The constant
pool is kept on the compiler state in this development; instruction
handlers that read a constant receive the decoded constant as an argument. -/
structure FuncObj where
  name : String
  arity : Nat
  bytecode : List Nat
  upvalueCount : Nat
  isGenerator : Bool
  isAsync : Bool
deriving Repr, DecidableEq

/-- The runtime value universe of the VM.  JavaScript `null` and
`undefined` are distinct values (`vm-datatypes.js`, instruction-handlers.js:
OP_GET_PROPERTY_PROTO pushes `undefined` on a miss).  A VM object carries
an ordered own-property record and a prototype reference which is either
another object or `vnull` (`{properties: {...}, prototype: ...}`).
`vfuncObj` is a raw `FunctionObject` pushed directly by OP_CONSTANT (the
constructor-less class path); `vhostFn`, `vhostProps` and `vhostObj` stand
for host-level JavaScript values (bound native functions, the raw
`properties` record, opaque host objects) that leak through host-field
reads. -/
inductive Value where
  | vnull
  | vundefined
  | vbool (b : Bool)
  | vnum (n : Int)
  | vstr (s : String)
  | varr (elems : List Value)
  | vobj (props : List (String × Value)) (proto : Value)
  | vclosure (f : FuncObj) (proto : Value)
  | vfuncObj (f : FuncObj)
  | vpromise (pid : Nat)
  | vgen (f : FuncObj)
  | vnative (name : String)
  | vhostFn (name : String)
  | vhostProps (props : List (String × Value))
  | vhostObj (tag : String)
deriving Repr

/-- `isFalsy` (instruction-handlers.js lines 12-14):
`value === null || value === undefined || value === false || value === 0 ||
value === "" || (Array.isArray(value) && value.length === 0)`. -/
def isFalsy : Value → Bool
  | .vnull => true
  | .vundefined => true
  | .vbool b => !b
  | .vnum n => n == 0
  | .vstr s => s == ""
  | .varr a => a.isEmpty
  | _ => false

mutual

/-- JavaScript `String(v)` restricted to this value universe.  Arrays
join their elements with commas, `null`/`undefined` elements becoming the
empty string (Array.prototype.toString); objects and other class
instances render as "[object Object]"; host functions render as native
function source text. -/
def jsToString : Value → String
  | .vnull => "null"
  | .vundefined => "undefined"
  | .vbool true => "true"
  | .vbool false => "false"
  | .vnum n => toString n
  | .vstr s => s
  | .varr elems => jsArrToString elems
  | .vobj _ _ => "[object Object]"
  | .vclosure _ _ => "[object Object]"
  | .vfuncObj _ => "[object Object]"
  | .vpromise _ => "[object Object]"
  | .vgen _ => "[object Object]"
  | .vnative _ => "[object Object]"
  | .vhostFn n => "function " ++ n ++ "() \x7b [native code] \x7d"
  | .vhostProps _ => "[object Object]"
  | .vhostObj _ => "[object Object]"

def jsArrToString : List Value → String
  | [] => ""
  | v :: rest =>
    (match v with
     | .vnull => ""
     | .vundefined => ""
     | w => jsToString w) ++
    (match rest with
     | [] => ""
     | r => "," ++ jsArrToString r)

end

/-- First-match own-property lookup in an object's ordered property record
(`properties.hasOwnProperty(name) && properties[name]`); keys of a
JavaScript record are unique, so first match is the match. -/
def lookupProp : List (String × Value) → String → Option Value
  | [], _ => none
  | (k, v) :: rest, name => if k == name then some v else lookupProp rest name

/-- The prototype-chain walk of OP_GET_PROPERTY_PROTO
(instruction-handlers.js lines 640-647): starting at the receiver, return
the first own property found following `prototype` links; `none` when the
chain (terminated by `vnull`, or by any non-object value, whose
`properties` field is absent) has no such property. -/
def protoLookup : Value → String → Option Value
  | .vobj props proto, name =>
    match lookupProp props name with
    | some v => some v
    | none => protoLookup proto name
  | _, _ => none

/-- Whether any object on the prototype chain has the property as an own
property (regardless of the stored value). -/
def chainHasOwn : Value → String → Bool
  | .vobj props proto, name =>
    (lookupProp props name).isSome || chainHasOwn proto name
  | _, _ => false

/-! ## Opcode catalog (opcodes.js) -/

def OP_CONSTANT : Nat := 0x00
def OP_PUSH_NULL : Nat := 0x01
def OP_POP : Nat := 0x04
def OP_GET_GLOBAL : Nat := 0x30
def OP_SET_GLOBAL : Nat := 0x31
def OP_DEFINE_GLOBAL : Nat := 0x3C
def OP_GET_LOCAL : Nat := 0x32
def OP_SET_LOCAL : Nat := 0x33
def OP_GET_UPVALUE : Nat := 0x34
def OP_SET_UPVALUE : Nat := 0x35
def OP_JUMP_IF_FALSE : Nat := 0x41
def OP_CALL : Nat := 0x60
def OP_RETURN : Nat := 0x61
def OP_CLOSURE : Nat := 0x62
def OP_GET_NATIVE : Nat := 0x70
def OP_SET_PROPERTY_PROTO : Nat := 0x87
def OP_GET_PROTOTYPE : Nat := 0x90
def OP_NEW : Nat := 0x91

/-! ## Compiler state (CompilerState.js, compiler/utils.js)

`CompilerState` holds the per-function scratch.  The `enclosing` pointer
is not modelled here: the definitions below embed compilation at a state
whose `enclosing` is `null` (the script state), where `resolveUpvalue`
returns -1 immediately (utils.js lines 40-42). -/

structure LocalVar where
  name : String
  depth : Nat
  isCaptured : Bool
deriving Repr, DecidableEq

structure CompState where
  functionName : String
  bytecode : List Nat
  constants : List Value
  locals : List LocalVar
  upvalues : List (Nat × Bool)
  scopeDepth : Nat
deriving Repr

/-- A fresh compiler state: slot 0 of the local table is reserved for the
function itself (CompilerState.js line 42). -/
def CompState.init (functionName : String) : CompState :=
  { functionName := functionName
    bytecode := []
    constants := []
    locals := [{ name := functionName, depth := 0, isCaptured := false }]
    upvalues := []
    scopeDepth := 0 }

def CompState.emitBytes (cs : CompState) (bytes : List Nat) : CompState :=
  { cs with bytecode := cs.bytecode ++ bytes }

/-- `addConstant` (CompilerState.js lines 53-56): appends unconditionally
and returns the new index.  Note: no bound check here. -/
def CompState.addConstant (cs : CompState) (v : Value) : CompState × Nat :=
  ({ cs with constants := cs.constants ++ [v] }, cs.constants.length)

/-- `emitConstant` (CompilerState.js lines 58-62): adds the constant, fails
when the resulting index exceeds 255, otherwise emits OP_CONSTANT ix. -/
def CompState.emitConstant (cs : CompState) (v : Value) : Except String CompState :=
  let (cs1, constIndex) := cs.addConstant v
  if constIndex > 255 then .error "Constant pool limit exceeded."
  else .ok (cs1.emitBytes [OP_CONSTANT, constIndex])

/-- `addLocal` (utils.js lines 10-13): fails when the local table already
holds more than 255 entries, otherwise appends the new local. -/
def addLocal (cs : CompState) (name : String) : Except String CompState :=
  if cs.locals.length > 255 then .error "Too many local variables."
  else .ok { cs with
             locals := cs.locals ++ [{ name := name, depth := cs.scopeDepth, isCaptured := false }] }

/-- The backward scan of `declareVariable`: walk the local table from its
last entry, stopping at the first local belonging to an outer scope, and
report whether the name is already declared in the current scope.  The
scan receives the locals in reverse order. -/
def declaredInScope : List LocalVar → Nat → String → Bool
  | [], _, _ => false
  | l :: rest, scopeDepth, name =>
    if l.depth < scopeDepth then false
    else if l.name == name then true
    else declaredInScope rest scopeDepth name

/-- `declareVariable` (utils.js lines 16-25): a no-op at script depth;
otherwise checks for redeclaration in the current scope (backward scan,
stopping at the first outer-scope local) and adds a local. -/
def declareVariable (cs : CompState) (name : String) : Except String CompState :=
  if cs.scopeDepth == 0 then .ok cs
  else if declaredInScope cs.locals.reverse cs.scopeDepth name then
    .error ("Identifier '" ++ name ++ "' has already been declared.")
  else addLocal cs name

/-- `CompilerState.resolveLocal` (CompilerState.js lines 76-81): scan the
local table from the last entry backwards, returning the index of the
rightmost local with the given name. -/
def resolveLocalIn : List LocalVar → String → Option Nat
  | [], _ => none
  | l :: rest, name =>
    match resolveLocalIn rest name with
    | some i => some (i + 1)
    | none => if l.name == name then some 0 else none

def CompState.resolveLocal (cs : CompState) (name : String) : Option Nat :=
  resolveLocalIn cs.locals name

/-- `defineVariable` (utils.js lines 28-36): SET_LOCAL when the name
resolves locally, otherwise DEFINE_GLOBAL with an unchecked `addConstant`
index. -/
def defineVariable (cs : CompState) (name : String) : CompState :=
  match cs.resolveLocal name with
  | some slot => cs.emitBytes [OP_SET_LOCAL, slot]
  | none =>
    let (cs1, constIndex) := cs.addConstant (.vstr name)
    cs1.emitBytes [OP_DEFINE_GLOBAL, constIndex]

/-- The fixed native global names (Compiler.js line 19). -/
def NATIVE_GLOBALS : List String :=
  ["console", "Math", "performance", "Date", "Object", "Promise"]

/-- `emitGetVariable` (utils.js lines 59-78) at a script-level state
(`enclosing === null`, so `resolveUpvalue` yields -1): GET_LOCAL for a
resolved local, otherwise GET_NATIVE or GET_GLOBAL with an unchecked
`addConstant` index — no constant-pool bound check on this path. -/
def emitGetVariable (cs : CompState) (name : String) : CompState :=
  match cs.resolveLocal name with
  | some slot => cs.emitBytes [OP_GET_LOCAL, slot]
  | none =>
    let (cs1, constIndex) := cs.addConstant (.vstr name)
    if name ∈ NATIVE_GLOBALS then cs1.emitBytes [OP_GET_NATIVE, constIndex]
    else cs1.emitBytes [OP_GET_GLOBAL, constIndex]

/-- `emitSetVariable` (utils.js lines 81-96) at a script-level state:
SET_LOCAL, otherwise SET_GLOBAL with an unchecked `addConstant` index. -/
def emitSetVariable (cs : CompState) (name : String) : CompState :=
  match cs.resolveLocal name with
  | some slot => cs.emitBytes [OP_SET_LOCAL, slot]
  | none =>
    let (cs1, constIndex) := cs.addConstant (.vstr name)
    cs1.emitBytes [OP_SET_GLOBAL, constIndex]

/-! ## Class declarations (compiler/visitors/classes.js)

The AST traversal compiling a method body is abstracted by handing the
visitor the already-compiled method `FuncObj`; the emission into the
enclosing state is modelled instruction for instruction. -/

/-- The tail of `compileMethod` (classes.js lines 164-170), emitted into
the enclosing state: add the compiled method to the constant pool (no
bound check), emit OP_CLOSURE with the index, then one (isLocal, index)
byte pair per upvalue. -/
def emitMethodClosure (cs : CompState) (method : FuncObj)
    (upvals : List (Bool × Nat)) : CompState :=
  let (cs1, constIndex) := cs.addConstant (.vfuncObj method)
  let cs2 := cs1.emitBytes [OP_CLOSURE, constIndex]
  cs2.emitBytes (upvals.flatMap fun u => [if u.1 then 1 else 0, u.2])

/-- The synthetic constructor built for a constructor-less class
(classes.js lines 185-186): bytecode `[OP_GET_LOCAL 0, OP_RETURN]`
(i.e. `constructor() \x7b return this; \x7d`), arity 0. -/
def syntheticConstructor (className : String) : FuncObj :=
  { name := className, arity := 0
    bytecode := [OP_GET_LOCAL, 0, OP_RETURN]
    upvalueCount := 0, isGenerator := false, isAsync := false }

/-- `ClassVisitors.ClassDeclaration.enter` (classes.js lines 174-209),
with each method body handed over pre-compiled (no upvalues, as for
script-level class methods).  `ctor` is the explicit constructor when one
is present.  Constructor-less classes go through `emitConstant` with the
raw synthetic FunctionObject — NOT through OP_CLOSURE.  Then the class
binding is defined, and each method is attached by
GET_GLOBAL / GET_PROTOTYPE / the method closure / SET_PROPERTY_PROTO /
POP. -/
def compileClassDeclaration (cs : CompState) (className : String)
    (ctor : Option FuncObj) (methods : List (String × FuncObj)) :
    Except String CompState := do
  let cs ← declareVariable cs className
  let cs ←
    match ctor with
    | some f => pure (emitMethodClosure cs f [])
    | none => cs.emitConstant (.vfuncObj (syntheticConstructor className))
  let cs := defineVariable cs className
  let cs := methods.foldl
    (fun cs m =>
      let (cs1, classIx) := cs.addConstant (.vstr className)
      let cs2 := cs1.emitBytes [OP_GET_GLOBAL, classIx]
      let cs3 := cs2.emitBytes [OP_GET_PROTOTYPE]
      let cs4 := emitMethodClosure cs3 m.2 []
      let (cs5, nameIx) := cs4.addConstant (.vstr m.1)
      let cs6 := cs5.emitBytes [OP_SET_PROPERTY_PROTO, nameIx]
      cs6.emitBytes [OP_POP])
    cs
  pure cs

/-! ## VM core state (vm/VM.js) -/

/-- A call frame (vm-datatypes.js lines 95-110).  `asyncPromise` holds the
id of the promise an async frame resolves/rejects on return; the owning
closure's function is `func` (so `frame.closure.func.isAsync` is
`func.isAsync`). -/
structure Frame where
  func : FuncObj
  ip : Nat
  stackBase : Nat
  asyncPromise : Option Nat
deriving Repr

/-- A try/catch record (VM.js lines 22-28): catch entry ip, value-stack
depth snapshot, call-frame index snapshot. -/
structure ExcHandler where
  targetIp : Nat
  stackSize : Nat
  frameIndex : Nat
deriving Repr, DecidableEq

/-- An `AsyncCallTask` on the microtask queue (PromiseV1.js lines 481-487).
Its constructor takes (callee, asyncPromise, args); the receiver argument
passed at the OP_CALL_METHOD site is silently dropped. -/
inductive Microtask where
  | asyncCall (callee : Value) (promiseId : Option Nat) (args : List Value)
deriving Repr

/-- The VM state.  `stack` and `frames` have their TOP at the list head;
`rejections` is the log of `promise.reject(reason)` effects (each of which
the source performs by scheduling a `_rejectInternal` microtask);
`nextPromiseId` allocates fresh promise ids. -/
structure VMState where
  stack : List Value
  frames : List Frame
  handlers : List ExcHandler
  microtasks : List Microtask
  nextPromiseId : Nat
  rejections : List (Nat × Value)
  hasError : Bool
deriving Repr

def MAX_CALL_FRAMES : Nat := 256

/-- `VM.runtimeError` (VM.js lines 184-215) with the default
`rejectPromise = true`.  First scan the call frames from the top for an
async frame with a live async promise: reject that promise and mark the
VM errored, touching neither handlers nor frames nor stack.  Otherwise pop
the top exception handler, unwind frames to `frameIndex + 1`, truncate the
value stack to the snapshot, push the message and jump to the catch entry.
Otherwise report a fatal error.  (If a handler's stack snapshot exceeded
the current stack length, the source would pad the array with holes; the
snapshot never exceeds it in an actual run, and the model keeps the stack
unchanged then.) -/
def runtimeError (st : VMState) (msg : Value) : VMState :=
  match st.frames.find? (fun fr => fr.func.isAsync && fr.asyncPromise.isSome) with
  | some fr =>
    { st with hasError := true
              rejections := st.rejections ++ [(fr.asyncPromise.getD 0, msg)] }
  | none =>
    match st.handlers with
    | [] => { st with hasError := true }
    | h :: rest =>
      let frames1 := st.frames.drop (st.frames.length - (h.frameIndex + 1))
      let stack1 := st.stack.drop (st.stack.length - h.stackSize)
      { st with
        frames := (match frames1 with
                   | f :: fs => { f with ip := h.targetIp } :: fs
                   | [] => [])
        stack := msg :: stack1
        handlers := rest }

/-- `VM.push` (VM.js lines 158-160). -/
def vmPush (st : VMState) (v : Value) : VMState :=
  { st with stack := v :: st.stack }

/-- `VM.pop` (VM.js lines 163-169): raises "Stack underflow!" and yields
`null` on an empty stack. -/
def vmPop (st : VMState) : Value × VMState :=
  match st.stack with
  | [] => (.vnull, runtimeError st (.vstr "Stack underflow!"))
  | v :: rest => (v, { st with stack := rest })

/-- `VM.peek` (VM.js lines 172-178): `stack[length - 1 - distance]`, i.e.
list index `distance` from the top; raises "Stack underflow for peek!" and
yields `null` when out of range. -/
def vmPeek (st : VMState) (distance : Nat) : Value × VMState :=
  if distance < st.stack.length then (st.stack.getD distance .vnull, st)
  else (.vnull, runtimeError st (.vstr "Stack underflow for peek!"))

/-- A handler's status result (vm-constants.js). -/
inductive IResult where
  | ok
  | yieldCtl
  | rtError
deriving Repr, DecidableEq

/-- JavaScript `result === undefined ? null : result`. -/
def undefinedToNull : Value → Value
  | .vundefined => .vnull
  | v => v

def isVNull : Value → Bool
  | .vnull => true
  | _ => false

def isVPromise : Value → Bool
  | .vpromise _ => true
  | _ => false

/-! ## Instruction handlers (vm/instruction-handlers.js) -/

/-- OP_NOT (lines 208-212): pop the operand, push whether it is falsy. -/
def opNot (st : VMState) : VMState × IResult :=
  let (a, st1) := vmPop st
  (vmPush st1 (.vbool (isFalsy a)), .ok)

/-- `readShort` of the current frame (vm-datatypes.js lines 106-109):
big-endian two-byte read at ip; a missing byte reads as 0 under the
bitwise-or coercion. -/
def Frame.readShortVal (fr : Frame) : Nat :=
  ((fr.func.bytecode.getD fr.ip 0) <<< 8) ||| (fr.func.bytecode.getD (fr.ip + 1) 0)

/-- OP_JUMP_IF_FALSE (lines 371-377): read the two-byte offset (advancing
ip by 2), peek the top of stack WITHOUT popping, and add the offset to the
current frame's ip when the peeked value is falsy. -/
def opJumpIfFalse (st : VMState) : VMState × IResult :=
  match st.frames with
  | [] => (st, .ok)  -- unreachable: the dispatch loop requires an active frame
  | fr :: rest =>
    let offset := fr.readShortVal
    let fr1 := { fr with ip := fr.ip + 2 }
    let st1 := { st with frames := fr1 :: rest }
    let (v, st2) := vmPeek st1 0
    if isFalsy v then
      ({ st2 with frames :=
          (match st2.frames with
           | g :: gs => { g with ip := g.ip + offset } :: gs
           | [] => []) }, .ok)
    else (st2, .ok)

/-- OP_THROW (lines 810-815): pop the thrown value, convert it WITH
`String(message)` to a string, and hand that string to `runtimeError`;
propagate RUNTIME_ERROR only when the VM is errored afterwards. -/
def opThrow (st : VMState) : VMState × IResult :=
  let (message, st1) := vmPop st
  let st2 := runtimeError st1 (.vstr (jsToString message))
  if st2.hasError then (st2, .rtError) else (st2, .ok)

/-- OP_GET_PROTOTYPE (lines 716-731): peek the top; error unless it is a
Closure; lazily allocate the closure's prototype object; pop and push the
prototype.  (The source mutates the closure's `prototype` field in place;
the value pushed is what the claims concern.) -/
def opGetPrototype (st : VMState) : VMState × IResult :=
  let (c, st1) := vmPeek st 0
  match c with
  | .vclosure _ proto =>
    let proto1 := match proto with
                  | .vobj ps pr => Value.vobj ps pr
                  | _ => Value.vobj [] .vnull
    let (_, st2) := vmPop st1
    (vmPush st2 proto1, .ok)
  | _ => (runtimeError st1 (.vstr "Can only get the prototype of functions/classes."), .rtError)

/-- OP_CALL (lines 386-443).  `hostCall name args` abstracts the host-side
invocation of a NativeObject's wrapped function or of a bare JavaScript
function (its result is host behaviour, outside this embedding).  The
closure path checks arity, then the 256-frame bound, then dispatches
generators (construct a generator object), async functions (allocate a
pending promise, enqueue an async-call microtask, push the promise) and
plain closures (push a frame whose stackBase is the callee slot). -/
def opCall (hostCall : String → List Value → Value) (st : VMState)
    (argCount : Nat) : VMState × IResult :=
  let (callee, st1) := vmPeek st argCount
  match callee with
  | .vclosure f proto =>
    if f.arity ≠ argCount then
      (runtimeError st1 (.vstr ("Expected " ++ toString f.arity ++ " arguments but got "
        ++ toString argCount ++ ".")), .rtError)
    else if st1.frames.length = MAX_CALL_FRAMES then
      (runtimeError st1 (.vstr "Stack overflow."), .rtError)
    else if f.isGenerator then
      (vmPush { st1 with stack := st1.stack.drop (argCount + 1) } (.vgen f), .ok)
    else if f.isAsync then
      let pid := st1.nextPromiseId
      let args := (st1.stack.take argCount).reverse
      let st2 := { st1 with
                   stack := st1.stack.drop (argCount + 1)
                   nextPromiseId := pid + 1
                   microtasks := st1.microtasks ++
                     [.asyncCall (.vclosure f proto) (some pid) args] }
      (vmPush st2 (.vpromise pid), .ok)
    else
      let newFrame : Frame :=
        { func := f, ip := 0, stackBase := st1.stack.length - argCount - 1
          asyncPromise := none }
      ({ st1 with frames := newFrame :: st1.frames }, .ok)
  | .vnative n =>
    let args := (st1.stack.take argCount).reverse
    let st2 := { st1 with stack := st1.stack.drop (argCount + 1) }
    (vmPush st2 (undefinedToNull (hostCall n args)), .ok)
  | .vhostFn n =>
    let args := (st1.stack.take argCount).reverse
    let st2 := { st1 with stack := st1.stack.drop (argCount + 1) }
    (vmPush st2 (undefinedToNull (hostCall n args)), .ok)
  | _ => (runtimeError st1 (.vstr "Can only call functions and classes."), .rtError)

/-- The host-side lookups OP_CALL_METHOD can hit before reaching the VM
prototype-chain dispatch: a NativeObject's `getProperty` when it yields a
function, a `PromiseV1` instance's own JavaScript method (`then` etc.),
and `receiver[methodName]` when the receiver is host-shaped and that read
yields a function (for a VM object this is an inherited
`Object.prototype` member).  All three are host behaviour and are
therefore oracles of the embedding. -/
structure HostOracle where
  nativeMethod : String → String → Option (List Value → Value)
  promiseMethod : String → Option (List Value → Value)
  plainMethod : Value → String → Option (List Value → Value)

/-- Values of JavaScript type 'object' in this universe (arrays, VM
objects, Closure / FunctionObject / PromiseV1 / GeneratorObject instances
and host objects — not primitives, not host functions). -/
def isJsObject : Value → Bool
  | .varr _ => true
  | .vobj _ _ => true
  | .vclosure _ _ => true
  | .vfuncObj _ => true
  | .vpromise _ => true
  | .vgen _ => true
  | .vhostProps _ => true
  | .vhostObj _ => true
  | _ => false

/-- OP_CALL_METHOD (lines 502-600).  After the null/undefined check the
receiver and arguments are removed from the stack; then, in order: a
NativeObject method, a PromiseV1 method, a function-valued host read on an
object-typed receiver (results with a `then` method are wrapped in a fresh
VM promise), and finally the prototype-chain walk for a Closure-valued
property — pushing a frame with the receiver in slot 0 WITHOUT any
frame-bound check.  Matched native/promise receivers whose lookup is not a
function fall through to the final "not found" error, as in the source's
if / else-if chain. -/
def opCallMethod (host : HostOracle) (st : VMState) (methodName : String)
    (argCount : Nat) : VMState × IResult :=
  let (receiver, st0) := vmPeek st argCount
  let notFound := fun (s : VMState) =>
    (runtimeError s (.vstr ("Method '" ++ methodName ++ "' not found or not callable on instance.")),
     IResult.rtError)
  match receiver with
  | .vnull =>
    (runtimeError st0 (.vstr ("Cannot read properties of null or undefined (calling method '"
      ++ methodName ++ "').")), .rtError)
  | .vundefined =>
    (runtimeError st0 (.vstr ("Cannot read properties of null or undefined (calling method '"
      ++ methodName ++ "').")), .rtError)
  | _ =>
    let args := (st0.stack.take argCount).reverse
    let st1 := { st0 with stack := st0.stack.drop (argCount + 1) }
    match receiver with
    | .vnative n =>
      match host.nativeMethod n methodName with
      | some f => (vmPush st1 (undefinedToNull (f args)), .ok)
      | none => notFound st1
    | .vpromise _ =>
      match host.promiseMethod methodName with
      | some f => (vmPush st1 (undefinedToNull (f args)), .ok)
      | none => notFound st1
    | _ =>
      if isJsObject receiver then
        match host.plainMethod receiver methodName with
        | some f =>
          let r := f args
          if isVPromise r then
            -- wrap a thenable result in a fresh pending VM promise
            (vmPush { st1 with nextPromiseId := st1.nextPromiseId + 1 }
              (.vpromise st1.nextPromiseId), .ok)
          else (vmPush st1 (undefinedToNull r), .ok)
        | none =>
          match protoLookup receiver methodName with
          | some (.vclosure mf mproto) =>
            if argCount ≠ mf.arity then
              (runtimeError st1 (.vstr ("Expected " ++ toString mf.arity ++ " args for method '"
                ++ methodName ++ "' but got " ++ toString argCount ++ ".")), .rtError)
            else if mf.isAsync then
              let pid := st1.nextPromiseId
              let st2 := { st1 with
                           nextPromiseId := pid + 1
                           microtasks := st1.microtasks ++
                             [.asyncCall (.vclosure mf mproto) (some pid) args] }
              (vmPush st2 (.vpromise pid), .ok)
            else if mf.isGenerator then
              (vmPush st1 (.vgen mf), .ok)
            else
              let newFrame : Frame :=
                { func := mf, ip := 0, stackBase := st1.stack.length
                  asyncPromise := none }
              ({ st1 with
                 stack := args.reverse ++ receiver :: st1.stack
                 frames := newFrame :: st1.frames }, .ok)
          | some _ => notFound st1
          | none => notFound st1
      else notFound st1

/-- OP_NEW (lines 749-792).  The native Promise constructor is handled
specially (one executor argument, constructing a pending VM promise —
a Closure executor is scheduled as an async-call microtask with native
resolve/reject callbacks, a host-function executor runs host-side).  Any
other non-Closure callee is a runtime error.  For a Closure: lazily
initialize its prototype, build a fresh instance, overwrite the callee
slot with the instance (slot 0 of the new frame is `this`) and push a
constructor frame — with NO frame-bound check. -/
def opNew (st : VMState) (argCount : Nat) : VMState × IResult :=
  let (constructor, st1) := vmPeek st argCount
  match constructor with
  | .vnative "Promise" =>
    if argCount = 1 then
      let (executor, st2) := vmPop st1
      let (_, st3) := vmPop st2
      match executor with
      | .vclosure ef eproto =>
        let pid := st3.nextPromiseId
        let st4 := { st3 with
                     nextPromiseId := pid + 1
                     microtasks := st3.microtasks ++
                       [.asyncCall (.vclosure ef eproto) none
                         [.vnative "resolve", .vnative "reject"]] }
        (vmPush st4 (.vpromise pid), .ok)
      | .vhostFn _ =>
        let pid := st3.nextPromiseId
        (vmPush { st3 with nextPromiseId := pid + 1 } (.vpromise pid), .ok)
      | _ => (runtimeError st3 (.vstr "Promise constructor expects a function."), .rtError)
    else
      (runtimeError st1 (.vstr "Promise constructor expects exactly one argument."), .rtError)
  | .vclosure f proto =>
    let proto1 := match proto with
                  | .vobj ps pr => Value.vobj ps pr
                  | _ => Value.vobj [] .vnull
    let instOb := Value.vobj [] proto1
    let frameBase := st1.stack.length - 1 - argCount
    let newFrame : Frame :=
      { func := f, ip := 0, stackBase := frameBase, asyncPromise := none }
    ({ st1 with
       stack := st1.stack.set argCount instOb
       frames := newFrame :: st1.frames }, .ok)
  | _ => (runtimeError st1 (.vstr "Can only instantiate a class (closure)."), .rtError)

/-- OP_AWAIT (lines 817-851).  `peek(0)`; a non-promise is a synchronous
pass-through (state untouched, result OK).  For a VM promise the current
call frame is popped and two handlers are attached to the promise via
`.then`; the registration is returned as data `(promise id, saved frame)`,
the handlers' scheduled microtask bodies being `awaitOnFulfilled` and
`awaitOnRejected` below.  The handler returns YIELD. -/
def opAwait (st : VMState) : VMState × IResult × Option (Nat × Frame) :=
  let (value, st1) := vmPeek st 0
  match value with
  | .vpromise pid =>
    (match st1.frames with
     | fr :: fs => ({ st1 with frames := fs }, .yieldCtl, some (pid, fr))
     | [] => (st1, .yieldCtl, none))  -- unreachable: AWAIT executes within a frame
  | _ => (st1, .ok, none)

/-- The microtask scheduled by OP_AWAIT's fulfilment handler (lines
832-838): push the suspended frame back (making it current), pop the
awaited promise off the value stack and push the resolved value. -/
def awaitOnFulfilled (fr : Frame) (resolvedValue : Value) (st : VMState) : VMState :=
  let st1 := { st with frames := fr :: st.frames }
  let (_, st2) := vmPop st1
  vmPush st2 resolvedValue

/-- The microtask scheduled by OP_AWAIT's rejection handler (lines
840-847): push the suspended frame back, raise a runtime error with the
rejection reason from within that frame, then pop the top frame again. -/
def awaitOnRejected (fr : Frame) (reason : Value) (st : VMState) : VMState :=
  let st1 := { st with frames := fr :: st.frames }
  let st2 := runtimeError st1 reason
  { st2 with frames := st2.frames.tail }

/-! ## Property access (OP_GET_PROPERTY_PROTO, lines 624-650)

Before the VM prototype-chain walk, the source tests
`typeof object === 'object' && propName in object` on the receiver's HOST
representation.  For a VM object `\x7bproperties, prototype\x7d` that test
succeeds exactly for the two record fields, for `__proto__`, and for the
members inherited from JavaScript's `Object.prototype`; the read then
returns the host field instead of walking the chain. -/

/-- The function-valued members of JavaScript `Object.prototype` (visible
through `in` on every plain object). -/
def jsObjectProtoFnKeys : List String :=
  ["constructor", "hasOwnProperty", "isPrototypeOf", "propertyIsEnumerable",
   "toLocaleString", "toString", "valueOf",
   "__defineGetter__", "__defineSetter__", "__lookupGetter__", "__lookupSetter__"]

/-- `propName in object` for the host record of a VM object. -/
def jsInVMObj (propName : String) : Bool :=
  propName == "properties" || propName == "prototype" || propName == "__proto__"
    || propName ∈ jsObjectProtoFnKeys

/-- `object[propName]` for the host record of a VM object, when
`jsInVMObj` holds: the raw property record, the internal prototype
reference (null when absent), `Object.prototype` itself, or an inherited
host function. -/
def jsFieldReadVMObj (props : List (String × Value)) (proto : Value)
    (propName : String) : Value :=
  if propName == "properties" then .vhostProps props
  else if propName == "prototype" then proto
  else if propName == "__proto__" then .vhostObj "Object.prototype"
  else .vhostFn propName

/-- OP_GET_PROPERTY_PROTO (lines 624-650) applied to the popped receiver.
Null/undefined error; a NativeObject's `getProperty` hook is the host
oracle `nativeGet`; an object-typed receiver whose host representation has
the property under `in` yields the host field; otherwise walk the VM
prototype chain, pushing `undefined` on a miss.  Primitive receivers reach
the walk and miss immediately (their `properties`/`prototype` reads are
undefined).  Other host-shaped receivers (arrays, promise/closure/
generator instances, host records) take the host read, oracle `hostRead`. -/
def opGetPropOn (nativeGet : String → String → Value)
    (hostRead : Value → String → Value)
    (obj : Value) (propName : String) : Except String Value :=
  match obj with
  | .vnull =>
    .error ("Cannot read property '" ++ propName ++ "' of null or undefined.")
  | .vundefined =>
    .error ("Cannot read property '" ++ propName ++ "' of null or undefined.")
  | .vnative n => .ok (nativeGet n propName)
  | .vobj props proto =>
    if jsInVMObj propName then .ok (jsFieldReadVMObj props proto propName)
    else .ok ((protoLookup (.vobj props proto) propName).getD .vundefined)
  | .vnum _ => .ok .vundefined
  | .vbool _ => .ok .vundefined
  | .vstr _ => .ok .vundefined
  | other => .ok (hostRead other propName)

/-! ## Upvalues (OP_GET_UPVALUE / OP_SET_UPVALUE, lines 256-272;
VM.closeUpvalues, VM.js lines 414-422)

The upvalue instructions index the value stack absolutely
(`vm.stack[upvalue.location]`), so this section views the stack as a
JavaScript array: reads outside the index range (in particular at the
invalidated location -1) yield `undefined` unless a previous out-of-range
write created that property on the array object. -/

structure JSArray where
  elems : List Value
  /-- properties created by writes at negative indices (JS stores them as
  ordinary object properties next to the array elements) -/
  negProps : List (Int × Value)
deriving Repr

def lookupIntKey : List (Int × Value) → Int → Option Value
  | [], _ => none
  | (k, v) :: rest, i => if k == i then some v else lookupIntKey rest i

def setIntKey : List (Int × Value) → Int → Value → List (Int × Value)
  | [], i, v => [(i, v)]
  | (k, w) :: rest, i, v =>
    if k == i then (k, v) :: rest else (k, w) :: setIntKey rest i v

/-- `arr[i]` under JavaScript semantics. -/
def JSArray.get (a : JSArray) (i : Int) : Value :=
  if 0 ≤ i ∧ i < a.elems.length then a.elems.getD i.toNat .vundefined
  else (lookupIntKey a.negProps i).getD .vundefined

/-- `arr[i] = v` under JavaScript semantics: in-range writes set the
element, writes past the end extend the array with holes (which read as
undefined), negative writes create an object property. -/
def JSArray.set (a : JSArray) (i : Int) (v : Value) : JSArray :=
  if 0 ≤ i then
    if i < a.elems.length then { a with elems := a.elems.set i.toNat v }
    else { a with elems :=
      a.elems ++ List.replicate (i.toNat - a.elems.length) .vundefined ++ [v] }
  else { a with negProps := setIntKey a.negProps i v }

/-- An upvalue handle (vm-datatypes.js lines 124-130): open upvalues hold
a stack location and `closed = null`; `VM.closeUpvalues` copies the stack
slot into `closed` and invalidates the location to -1. -/
structure UpvalueH where
  location : Int
  closed : Value
deriving Repr

/-- `new Upvalue(location)`: `closed` starts as null. -/
def UpvalueH.mkOpen (location : Int) : UpvalueH :=
  { location := location, closed := .vnull }

/-- OP_GET_UPVALUE's read (lines 256-261): the closed cell when
`closed !== null`, otherwise the (possibly invalidated) stack location. -/
def getUpvalueVal (stack : JSArray) (uv : UpvalueH) : Value :=
  if !(isVNull uv.closed) then uv.closed else stack.get uv.location

/-- OP_SET_UPVALUE's write (lines 263-272): the closed cell when
`closed !== null`, otherwise the (possibly invalidated) stack location. -/
def setUpvalueVal (stack : JSArray) (uv : UpvalueH) (v : Value) :
    JSArray × UpvalueH :=
  if !(isVNull uv.closed) then (stack, { uv with closed := v })
  else (stack.set uv.location v, uv)

/-- Closing one upvalue (the body of `VM.closeUpvalues`, VM.js lines
417-419): copy the stack slot into `closed`, invalidate the location. -/
def closeUpvalue (stack : JSArray) (uv : UpvalueH) : UpvalueH :=
  { location := -1, closed := stack.get uv.location }

/-- `VM.closeUpvalues` (VM.js lines 415-422) over the open-upvalue list
(sorted by descending location): close and detach every upvalue whose
location is at or above the cut, returning (closed cells, remaining open
list). -/
def closeUpvaluesList (stack : JSArray) :
    List UpvalueH → Int → List UpvalueH × List UpvalueH
  | [], _ => ([], [])
  | uv :: rest, k =>
    if uv.location ≥ k then
      let (cl, rem) := closeUpvaluesList stack rest k
      (closeUpvalue stack uv :: cl, rem)
    else ([], uv :: rest)

/-! ## Promises (vm/PromiseV1.js)

A `PromiseV1` holds a state, a value or reason, and two callback queues.
Callback invocations happen through the microtask queue; the model records
each eventual invocation in a `fired` log (callbacks are identified by
ids), since the order and multiplicity of invocations is exactly what the
claims concern. -/

inductive PState where
  | pending
  | fulfilled (v : Value)
  | rejected (r : Value)
deriving Repr

structure PromiseRec where
  state : PState
  onFulfilled : List Nat
  onRejected : List Nat
  fired : List (Nat × Value)
deriving Repr

def PromiseRec.isPending (p : PromiseRec) : Bool :=
  match p.state with
  | .pending => true
  | _ => false

/-- `_resolveInternal` (PromiseV1.js lines 525-537): a settled promise
returns unchanged; resolving with another promise adopts it (handlers are
attached to the other promise, this one stays pending); otherwise the
promise fulfills, every queued fulfilment callback is invoked with the
value, and the fulfilment queue is cleared (the rejection queue is NOT
cleared). -/
def resolveInternal (p : PromiseRec) (v : Value) : PromiseRec :=
  if !p.isPending then p
  else if isVPromise v then p
  else
    { state := .fulfilled v
      onFulfilled := []
      onRejected := p.onRejected
      fired := p.fired ++ p.onFulfilled.map (fun c => (c, v)) }

/-- `_rejectInternal` (PromiseV1.js lines 539-545): a settled promise
returns unchanged; otherwise the promise rejects, every queued rejection
callback is invoked with the reason, and the rejection queue is cleared
(the fulfilment queue is NOT cleared). -/
def rejectInternal (p : PromiseRec) (r : Value) : PromiseRec :=
  if !p.isPending then p
  else
    { state := .rejected r
      onFulfilled := p.onFulfilled
      onRejected := []
      fired := p.fired ++ p.onRejected.map (fun c => (c, r)) }

/-- A settle attempt delivered through the microtask queue:
`resolve(value)` or `reject(reason)`. -/
inductive POp where
  | res (v : Value)
  | rej (r : Value)

def applyPOp : POp → PromiseRec → PromiseRec
  | .res v, p => resolveInternal p v
  | .rej r, p => rejectInternal p r

def applyPOps : List POp → PromiseRec → PromiseRec
  | [], p => p
  | op :: rest, p => applyPOps rest (applyPOp op p)

/-- Whether a settle attempt actually settles a pending promise (a resolve
with a promise value adopts instead of settling). -/
def settlesP : POp → Bool
  | .res v => !isVPromise v
  | .rej _ => true

def firstSettle : List POp → Option POp
  | [] => none
  | op :: rest => if settlesP op then some op else firstSettle rest

/-- `PromiseV1.then` registration (lines 550-579).  On a pending promise
the provided callbacks are appended to the queues (`if (onFulfilled)
push`, `if (onRejected) push`).  On a settled promise the matching
callback is scheduled immediately through the microtask queue (recorded
here as a firing); the queues are untouched. -/
def thenRegister (p : PromiseRec) (fId rId : Option Nat) : PromiseRec :=
  match p.state with
  | .pending =>
    { p with onFulfilled := p.onFulfilled ++ fId.toList
             onRejected := p.onRejected ++ rId.toList }
  | .fulfilled v => { p with fired := p.fired ++ fId.toList.map (fun c => (c, v)) }
  | .rejected r => { p with fired := p.fired ++ rId.toList.map (fun c => (c, r)) }

/-! ## Sample objects used by concrete witnesses -/

def plainFn : FuncObj :=
  { name := "f", arity := 0, bytecode := [OP_RETURN], upvalueCount := 0
    isGenerator := false, isAsync := false }

def asyncFn : FuncObj :=
  { name := "g", arity := 0, bytecode := [OP_RETURN], upvalueCount := 0
    isGenerator := false, isAsync := true }

def mkFrame (f : FuncObj) (ap : Option Nat) : Frame :=
  { func := f, ip := 0, stackBase := 0, asyncPromise := ap }

/-! # Theorems -/

/-- C3 (amended): OP_NOT pops its operand and pushes true exactly when the
operand is falsy; a value is falsy iff it is null, undefined, false, 0,
the empty string or the empty array; OP_JUMP_IF_FALSE leaves the value
stack untouched (it peeks, never pops) and adds the decoded offset to the
current frame's ip exactly when the un-popped top of stack is falsy. -/
theorem c3_not_and_jump_if_false_truthiness
    (v : Value) (rest : List Value) (fr : Frame) (fs : List Frame)
    (hs : List ExcHandler) (ms : List Microtask) (np : Nat)
    (rj : List (Nat × Value)) (he : Bool) :
    opNot (VMState.mk (v :: rest) (fr :: fs) hs ms np rj he) =
      (VMState.mk (Value.vbool (isFalsy v) :: rest) (fr :: fs) hs ms np rj he, .ok) ∧
    (isFalsy v = true ↔
      (v = .vnull ∨ v = .vundefined ∨ v = .vbool false ∨ v = .vnum 0 ∨
       v = .vstr "" ∨ v = .varr [])) ∧
    opJumpIfFalse (VMState.mk (v :: rest) (fr :: fs) hs ms np rj he) =
      (VMState.mk (v :: rest)
        ({ fr with ip := fr.ip + 2 + (if isFalsy v then fr.readShortVal else 0) } :: fs)
        hs ms np rj he, .ok) := by
  refine ⟨?_, ?_, ?_⟩
  · simp [opNot, vmPop, vmPush]
  · cases v <;> simp [isFalsy]
  · by_cases hv : isFalsy v <;>
      simp [opJumpIfFalse, vmPeek, hv, Nat.add_assoc]

/-- C3 counterexample: `undefined` is a runtime value (OP_GET_PROPERTY_PROTO
pushes it on a property miss) that `isFalsy` accepts, yet it is none of
null, false, 0, the empty string or the empty array — so OP_NOT pushes
true on a value outside the claim's list. -/
theorem c3_undefined_falsy_counterexample :
    isFalsy .vundefined = true ∧
    opNot (VMState.mk [.vundefined] [] [] [] 0 [] false) =
      (VMState.mk [.vbool true] [] [] [] 0 [] false, .ok) ∧
    Value.vundefined ≠ .vnull ∧ Value.vundefined ≠ .vbool false ∧
    Value.vundefined ≠ .vnum 0 ∧ Value.vundefined ≠ .vstr "" ∧
    Value.vundefined ≠ .varr [] := by
  refine ⟨rfl, by simp [opNot, vmPop, vmPush, isFalsy], ?_, ?_, ?_, ?_, ?_⟩ <;> simp

/-- C1: when any call frame belongs to an async function with a live async
promise, `runtimeError` rejects that promise with the error and marks the
VM errored; the exception-handler stack, the call frames and the value
stack are untouched — no catch handler runs, however many handlers are
installed. -/
theorem c1_async_error_rejects_promise_skips_catch
    (st : VMState) (msg : Value)
    (h : ∃ fr ∈ st.frames, fr.func.isAsync = true ∧ fr.asyncPromise.isSome = true) :
    (runtimeError st msg).hasError = true ∧
    (∃ pid, (runtimeError st msg).rejections = st.rejections ++ [(pid, msg)]) ∧
    (runtimeError st msg).handlers = st.handlers ∧
    (runtimeError st msg).frames = st.frames ∧
    (runtimeError st msg).stack = st.stack := by
  obtain ⟨fr, hmem, h1, h2⟩ := h
  have hsome : (st.frames.find? (fun f => f.func.isAsync && f.asyncPromise.isSome)).isSome := by
    rw [List.find?_isSome]
    exact ⟨fr, hmem, by simp [h1, h2]⟩
  obtain ⟨fr0, hfr0⟩ := Option.isSome_iff_exists.mp hsome
  have hp : fr0.asyncPromise.isSome = true := by
    have := List.find?_some hfr0
    simp at this
    exact this.2
  obtain ⟨pid, hpid⟩ := Option.isSome_iff_exists.mp hp
  simp [runtimeError, hfr0, hpid]

/-- C1 witness: a concrete state whose only frame is async with live
promise 7 and whose handler stack is non-empty. -/
theorem c1_witness :
    (∃ fr ∈ [mkFrame asyncFn (some 7)],
       fr.func.isAsync = true ∧ fr.asyncPromise.isSome = true) ∧
    (runtimeError
       (VMState.mk [] [mkFrame asyncFn (some 7)] [ExcHandler.mk 5 0 0] [] 0 [] false)
       (.vstr "boom")).hasError = true ∧
    (runtimeError
       (VMState.mk [] [mkFrame asyncFn (some 7)] [ExcHandler.mk 5 0 0] [] 0 [] false)
       (.vstr "boom")).handlers = [ExcHandler.mk 5 0 0] := by
  have hh : ∃ fr ∈ [mkFrame asyncFn (some 7)],
      fr.func.isAsync = true ∧ fr.asyncPromise.isSome = true :=
    ⟨mkFrame asyncFn (some 7), by simp, by simp [mkFrame, asyncFn]⟩
  have h := c1_async_error_rejects_promise_skips_catch
    (VMState.mk [] [mkFrame asyncFn (some 7)] [ExcHandler.mk 5 0 0] [] 0 [] false)
    (.vstr "boom") hh
  exact ⟨hh, h.1, h.2.2.1⟩

/-- C9: OP_GET_UPVALUE / OP_SET_UPVALUE test closedness with
`closed !== null`.  An upvalue closed over a non-null stack slot is read
and written through the closed cell; an upvalue closed over the value null
keeps `closed = null`, is still treated as open, and is accessed through
its invalidated stack location -1 (which reads as `undefined` on an array
without a "-1" property, and which a write turns into an object property
of the stack array). -/
theorem c9_upvalue_closed_over_null_stays_open
    (stack stack2 : JSArray) (uv : UpvalueH) (w : Value) :
    (isVNull (stack.get uv.location) = false →
      closeUpvalue stack uv = UpvalueH.mk (-1) (stack.get uv.location) ∧
      getUpvalueVal stack2 (closeUpvalue stack uv) = stack.get uv.location ∧
      setUpvalueVal stack2 (closeUpvalue stack uv) w =
        (stack2, UpvalueH.mk (-1) w)) ∧
    (stack.get uv.location = .vnull →
      closeUpvalue stack uv = UpvalueH.mk (-1) .vnull ∧
      getUpvalueVal stack2 (closeUpvalue stack uv) = stack2.get (-1) ∧
      setUpvalueVal stack2 (closeUpvalue stack uv) w =
        (stack2.set (-1) w, UpvalueH.mk (-1) .vnull)) := by
  constructor
  · intro hnn
    refine ⟨rfl, ?_, ?_⟩
    · simp [getUpvalueVal, closeUpvalue, hnn]
    · simp [setUpvalueVal, closeUpvalue, hnn]
  · intro hn
    refine ⟨by simp [closeUpvalue, hn], ?_, ?_⟩
    · simp [getUpvalueVal, closeUpvalue, hn, isVNull]
    · simp [setUpvalueVal, closeUpvalue, hn, isVNull]

/-- C9 witness: closing over the slot value 5 yields closed-cell access;
closing over the slot value null yields access through location -1, which
reads undefined on a fresh stack. -/
theorem c9_witness :
    (isVNull ((JSArray.mk [.vnum 5] []).get 0) = false ∧
      getUpvalueVal (JSArray.mk [] [])
        (closeUpvalue (JSArray.mk [.vnum 5] []) (UpvalueH.mkOpen 0)) = .vnum 5) ∧
    ((JSArray.mk [.vnull] []).get 0 = .vnull ∧
      getUpvalueVal (JSArray.mk [] [])
        (closeUpvalue (JSArray.mk [.vnull] []) (UpvalueH.mkOpen 0)) =
        (JSArray.mk [] []).get (-1) ∧
      (JSArray.mk [] []).get (-1) = .vundefined) := by
  have h5 := c9_upvalue_closed_over_null_stays_open
    (JSArray.mk [.vnum 5] []) (JSArray.mk [] []) (UpvalueH.mkOpen 0) .vnull
  have hn := c9_upvalue_closed_over_null_stays_open
    (JSArray.mk [.vnull] []) (JSArray.mk [] []) (UpvalueH.mkOpen 0) .vnull
  refine ⟨⟨by rfl, ?_⟩, ⟨by rfl, ?_, by rfl⟩⟩
  · have := (h5.1 (by rfl)).2.1
    simpa using this
  · exact (hn.2 (by rfl)).2.1

/-- C10: OP_THROW stringifies before unwinding.  Whatever value is thrown,
the value pushed for a catch handler is the string `String(v)`, and the
reason used to reject an enclosing async function's promise is the same
string; a thrown non-string value is never delivered as itself. -/
theorem c10_throw_stringifies
    (st : VMState) (v : Value) (rest : List Value) (hstk : st.stack = v :: rest)
    (hrun : st.hasError = false) :
    ((st.frames.find? (fun f => f.func.isAsync && f.asyncPromise.isSome) = none) →
      ∀ hd tl, st.handlers = hd :: tl →
        (opThrow st).1.stack.head? = some (.vstr (jsToString v)) ∧
        (opThrow st).2 = .ok) ∧
    (∀ fr pid,
      st.frames.find? (fun f => f.func.isAsync && f.asyncPromise.isSome) = some fr →
      fr.asyncPromise = some pid →
        (opThrow st).1.rejections = st.rejections ++ [(pid, .vstr (jsToString v))] ∧
        (opThrow st).2 = .rtError) ∧
    ((∀ s, v ≠ .vstr s) → Value.vstr (jsToString v) ≠ v) := by
  refine ⟨?_, ?_, ?_⟩
  · intro hnone hd tl hh
    simp [opThrow, vmPop, hstk, runtimeError, hnone, hh, hrun]
  · intro fr pid hfind hpid
    simp [opThrow, vmPop, hstk, runtimeError, hfind, hpid]
  · intro hns heq
    exact hns (jsToString v) heq.symm

/-- C10 witness: throwing the number 42 inside a try block delivers the
string "42" to the catch handler, and throwing it inside an async frame
rejects the promise with the string "42". -/
theorem c10_witness :
    (opThrow (VMState.mk [.vnum 42] [mkFrame plainFn none] [ExcHandler.mk 9 0 0] [] 0 [] false)).1.stack.head?
      = some (.vstr "42") ∧
    (opThrow (VMState.mk [.vnum 42] [mkFrame asyncFn (some 3)] [] [] 0 [] false)).1.rejections
      = [(3, .vstr "42")] := by
  have h1 := c10_throw_stringifies
    (VMState.mk [.vnum 42] [mkFrame plainFn none] [ExcHandler.mk 9 0 0] [] 0 [] false)
    (.vnum 42) [] rfl rfl
  have h2 := c10_throw_stringifies
    (VMState.mk [.vnum 42] [mkFrame asyncFn (some 3)] [] [] 0 [] false)
    (.vnum 42) [] rfl rfl
  constructor
  · have := (h1.1 (by simp [List.find?, mkFrame, plainFn]) (ExcHandler.mk 9 0 0) [] rfl).1
    simpa [jsToString] using this
  · have := (h2.2.1 (mkFrame asyncFn (some 3)) 3
      (by simp [List.find?, mkFrame, asyncFn]) rfl).1
    simpa [jsToString] using this

/-- A settled promise ignores any single settle attempt. -/
theorem applyPOp_settled (p : PromiseRec) (op : POp) (h : p.isPending = false) :
    applyPOp op p = p := by
  cases op <;> simp [applyPOp, resolveInternal, rejectInternal, h]

/-- A settled promise ignores every sequence of settle attempts. -/
theorem applyPOps_settled (ops : List POp) (p : PromiseRec) (h : p.isPending = false) :
    applyPOps ops p = p := by
  induction ops with
  | nil => rfl
  | cons op rest ih =>
    simp [applyPOps, applyPOp_settled p op h, ih]

/-- The state reached by the first effective settle attempt. -/
def settleResult (p : PromiseRec) : Option POp → PromiseRec
  | none => p
  | some (.res v) =>
    { state := .fulfilled v
      onFulfilled := []
      onRejected := p.onRejected
      fired := p.fired ++ p.onFulfilled.map (fun c => (c, v)) }
  | some (.rej r) =>
    { state := .rejected r
      onFulfilled := p.onFulfilled
      onRejected := []
      fired := p.fired ++ p.onRejected.map (fun c => (c, r)) }

theorem settleResult_not_pending (p : PromiseRec) (op : POp) (hset : settlesP op = true) :
    (settleResult p (some op)).isPending = false := by
  cases op <;> simp [settleResult, PromiseRec.isPending]

/-- C6: promise settlement is one-shot.  A settled promise is left
unchanged by every further resolve/reject (state, value/reason, queues and
firing log all frozen).  A pending promise subjected to any sequence of
settle attempts ends in the state determined by the FIRST effective
attempt alone: each callback queued for the winning side fires exactly
once (the log gains exactly that queue, in order) and is deregistered, so
no later attempt can fire it again; an adoption (resolving with a promise)
settles nothing.  Registration through `then` on an already settled
promise schedules each provided callback exactly once. -/
theorem c6_promise_settlement_one_shot (p : PromiseRec) (ops : List POp)
    (fId rId : Option Nat) :
    (p.isPending = false → applyPOps ops p = p) ∧
    (p.state = .pending → applyPOps ops p = settleResult p (firstSettle ops)) ∧
    (∀ v, p.state = .fulfilled v →
      thenRegister p fId rId = { p with fired := p.fired ++ fId.toList.map (fun c => (c, v)) }) ∧
    (∀ r, p.state = .rejected r →
      thenRegister p fId rId = { p with fired := p.fired ++ rId.toList.map (fun c => (c, r)) }) := by
  refine ⟨fun h => applyPOps_settled ops p h, ?_, ?_, ?_⟩
  · intro hpend
    induction ops generalizing p with
    | nil => simp [applyPOps, firstSettle, settleResult]
    | cons op rest ih =>
      have hp : p.isPending = true := by simp [PromiseRec.isPending, hpend]
      by_cases hset : settlesP op = true
      · have happ : applyPOp op p = settleResult p (some op) := by
          cases op with
          | res v =>
            have hnp : isVPromise v = false := by
              simpa [settlesP] using hset
            simp [applyPOp, resolveInternal, hp, hnp, settleResult]
          | rej r =>
            simp [applyPOp, rejectInternal, hp, settleResult]
        simp only [applyPOps, happ, firstSettle, hset, if_pos]
        exact applyPOps_settled rest _ (settleResult_not_pending p op hset)
      · have hres : ∃ v, op = .res v ∧ isVPromise v = true := by
          cases op with
          | res v => exact ⟨v, rfl, by simpa [settlesP] using hset⟩
          | rej r => simp [settlesP] at hset
        obtain ⟨v, rfl, hvp⟩ := hres
        have happ : applyPOp (.res v) p = p := by
          simp [applyPOp, resolveInternal, hp, hvp]
        simp only [applyPOps, happ, firstSettle, settlesP, hvp]
        simpa using ih p hpend
  · intro v hv
    simp [thenRegister, hv]
  · intro r hr
    simp [thenRegister, hr]

/-- C6 witness: a pending promise with one fulfilment callback (id 1) and
one rejection callback (id 2), hit by a resolve with 3 and then a
spurious reject with 9: it fulfills with 3, callback 1 fires exactly once,
callback 2 never fires, and the late reject changes nothing. -/
theorem c6_witness :
    applyPOps [POp.res (.vnum 3), POp.rej (.vnum 9)]
      (PromiseRec.mk .pending [1] [2] []) =
      PromiseRec.mk (.fulfilled (.vnum 3)) [] [2] [(1, .vnum 3)] := by
  have h := (c6_promise_settlement_one_shot
    (PromiseRec.mk .pending [1] [2] []) [POp.res (.vnum 3), POp.rej (.vnum 9)]
    none none).2.1 rfl
  simpa [firstSettle, settlesP, isVPromise, settleResult] using h

/-- C5 (amended): the bound checks exist only on two paths.
`emitConstant` fails exactly when the new constant's index would exceed
255, so OP_CONSTANT operands stay in 0..255; `addLocal` fails exactly when
the local table already has 256 entries, so local-slot operands stay in
0..255.  But a name compiled as a global goes through the unchecked
`addConstant` in `emitGetVariable` / `emitSetVariable`, which emit
OP_GET_GLOBAL / OP_SET_GLOBAL with operand `cs.constants.length` whatever
its size — no compile error on that path. -/
theorem c5_bound_checks_partial (cs : CompState) (v : Value) (name : String) :
    (cs.constants.length > 255 →
      cs.emitConstant v = .error "Constant pool limit exceeded.") ∧
    (cs.constants.length ≤ 255 →
      cs.emitConstant v =
        .ok ((cs.addConstant v).1.emitBytes [OP_CONSTANT, cs.constants.length])) ∧
    (cs.locals.length > 255 →
      addLocal cs name = .error "Too many local variables.") ∧
    (cs.locals.length ≤ 255 →
      addLocal cs name = .ok { cs with locals := cs.locals ++
        [{ name := name, depth := cs.scopeDepth, isCaptured := false }] }) ∧
    (cs.resolveLocal name = none → name ∉ NATIVE_GLOBALS →
      emitGetVariable cs name =
        (cs.addConstant (.vstr name)).1.emitBytes [OP_GET_GLOBAL, cs.constants.length] ∧
      emitSetVariable cs name =
        (cs.addConstant (.vstr name)).1.emitBytes [OP_SET_GLOBAL, cs.constants.length]) := by
  refine ⟨?_, ?_, ?_, ?_, ?_⟩
  · intro h; simp [CompState.emitConstant, CompState.addConstant, h]
  · intro h
    simp [CompState.emitConstant, CompState.addConstant, Nat.not_lt.mpr h,
      CompState.emitBytes]
  · intro h; simp [addLocal, h]
  · intro h; simp [addLocal, Nat.not_lt.mpr h]
  · intro hres hnat
    constructor
    · simp [emitGetVariable, hres, hnat, CompState.addConstant, CompState.emitBytes]
    · simp [emitSetVariable, hres, CompState.addConstant, CompState.emitBytes]

/-- C5 witness: on a fresh script state everything is in bounds — the
first constant is emitted at index 0 and a global read emits operand 0. -/
theorem c5_witness :
    (CompState.init "<script>").constants.length ≤ 255 ∧
    (CompState.init "<script>").resolveLocal "x" = none ∧
    "x" ∉ NATIVE_GLOBALS ∧
    (CompState.init "<script>").emitConstant (.vnum 1) =
      .ok (((CompState.init "<script>").addConstant (.vnum 1)).1.emitBytes [OP_CONSTANT, 0]) ∧
    emitGetVariable (CompState.init "<script>") "x" =
      ((CompState.init "<script>").addConstant (.vstr "x")).1.emitBytes [OP_GET_GLOBAL, 0] := by
  have h := c5_bound_checks_partial (CompState.init "<script>") (.vnum 1) "x"
  refine ⟨by decide, by decide, by decide, ?_, ?_⟩
  · exact h.2.1 (by decide)
  · exact (h.2.2.2.2 (by decide) (by decide)).1

/-- C5 counterexample: with 256 constants already in the pool, compiling a
read of the global `g` emits the OP_GET_GLOBAL operand 256 — outside
0..255 — and no compile-time error is raised on this path, contradicting
the claim that compilation fails whenever the pool would exceed index
255. -/
theorem c5_unchecked_operand_256 :
    (emitGetVariable
      { CompState.init "<script>" with constants := List.replicate 256 (.vnum 0) }
      "g").bytecode = [OP_GET_GLOBAL, 256] ∧
    (emitGetVariable
      { CompState.init "<script>" with constants := List.replicate 256 (.vnum 0) }
      "g").constants.length = 257 ∧
    ¬ (256 ≤ 255) := by
  refine ⟨rfl, ?_, by decide⟩
  simp [emitGetVariable, CompState.init, resolveLocalIn, CompState.resolveLocal,
    CompState.addConstant, CompState.emitBytes, NATIVE_GLOBALS]

/-- C2 (code bug): for a class with no explicit constructor the visitor
emits OP_CONSTANT (0x00) with the raw synthetic FunctionObject as the
constant — not an OP_CLOSURE (0x62) — so GET_GLOBAL later pushes a value
that is not a Closure, and both OP_GET_PROTOTYPE (run while attaching the
class's methods) and OP_NEW raise runtime errors on it: the spec's program
`class P\x7bgreet()\x7b...\x7d\x7d; let p = new P(); p.greet()` cannot
run. -/
theorem c2_constructorless_class_emits_constant_not_closure :
    compileClassDeclaration (CompState.init "<script>") "P" none
      [("greet", FuncObj.mk "greet" 0 [OP_CONSTANT, 0, OP_RETURN] 0 false false)] =
      .ok { CompState.init "<script>" with
            bytecode := [OP_CONSTANT, 0, OP_DEFINE_GLOBAL, 1, OP_GET_GLOBAL, 2,
                         OP_GET_PROTOTYPE, OP_CLOSURE, 3, OP_SET_PROPERTY_PROTO, 4, OP_POP]
            constants := [.vfuncObj (syntheticConstructor "P"), .vstr "P", .vstr "P",
                          .vfuncObj (FuncObj.mk "greet" 0 [OP_CONSTANT, 0, OP_RETURN] 0 false false),
                          .vstr "greet"] } ∧
    OP_CONSTANT ≠ OP_CLOSURE ∧
    opGetPrototype
      (VMState.mk [.vfuncObj (syntheticConstructor "P")] [mkFrame plainFn none] [] [] 0 [] false) =
      (VMState.mk [.vfuncObj (syntheticConstructor "P")] [mkFrame plainFn none] [] [] 0 [] true,
       .rtError) ∧
    (opNew
      (VMState.mk [.vfuncObj (syntheticConstructor "P")] [mkFrame plainFn none] [] [] 0 [] false)
      0).2 = .rtError := by
  refine ⟨rfl, by decide, ?_, ?_⟩
  · simp [opGetPrototype, vmPeek, runtimeError, mkFrame, plainFn, List.find?]
  · simp [opNew, vmPeek, runtimeError, mkFrame, plainFn, List.find?, syntheticConstructor]

/-- `runtimeError` never pushes a call frame: it either leaves the frame
stack alone (async rejection, fatal error) or pops frames down to a
handler's snapshot. -/
theorem runtimeError_frames_length_le (st : VMState) (msg : Value) :
    (runtimeError st msg).frames.length ≤ st.frames.length := by
  unfold runtimeError
  cases hf : st.frames.find? (fun fr => fr.func.isAsync && fr.asyncPromise.isSome) with
  | some fr => simp
  | none =>
    cases hh : st.handlers with
    | nil => simp
    | cons h rest =>
      simp only
      cases hd : st.frames.drop (st.frames.length - (h.frameIndex + 1)) with
      | nil => simp
      | cons f fs =>
        have : (st.frames.drop (st.frames.length - (h.frameIndex + 1))).length ≤ st.frames.length := by
          simp
        simpa [hd] using this

/-- C4 (amended): the 256-frame bound is enforced only by OP_CALL — at
exactly 256 frames a plain-closure call raises "Stack overflow." without
pushing a frame.  OP_NEW pushes a constructor frame with no bound check,
and OP_CALL_METHOD's prototype-chain dispatch pushes a method frame with
no bound check, so either can grow the frame stack past 256. -/
theorem c4_frame_bound_only_on_call
    (hostCall : String → List Value → Value) (host : HostOracle)
    (st : VMState) (argCount : Nat) (f mf : FuncObj) (proto mp : Value)
    (props : List (String × Value)) (pr : Value) (methodName : String)
    (hlen : argCount < st.stack.length) :
    (st.stack.getD argCount .vnull = .vclosure f proto → f.arity = argCount →
      st.frames.length = MAX_CALL_FRAMES →
        opCall hostCall st argCount =
          (runtimeError st (.vstr "Stack overflow."), .rtError) ∧
        (opCall hostCall st argCount).1.frames.length ≤ st.frames.length) ∧
    (st.stack.getD argCount .vnull = .vclosure f proto →
      (opNew st argCount).1.frames.length = st.frames.length + 1 ∧
      (opNew st argCount).2 = .ok) ∧
    (st.stack.getD argCount .vnull = .vobj props pr →
      host.plainMethod (.vobj props pr) methodName = none →
      protoLookup (.vobj props pr) methodName = some (.vclosure mf mp) →
      mf.arity = argCount → mf.isAsync = false → mf.isGenerator = false →
        (opCallMethod host st methodName argCount).1.frames.length = st.frames.length + 1 ∧
        (opCallMethod host st methodName argCount).2 = .ok) := by
  refine ⟨?_, ?_, ?_⟩
  · intro hc ha hmax
    rw [List.getD_eq_getElem st.stack .vnull hlen] at hc
    have h1 : opCall hostCall st argCount =
        (runtimeError st (.vstr "Stack overflow."), .rtError) := by
      simp [opCall, vmPeek, hlen, hc, ha, hmax]
    exact ⟨h1, by rw [h1]; exact runtimeError_frames_length_le st _⟩
  · intro hc
    rw [List.getD_eq_getElem st.stack .vnull hlen] at hc
    constructor <;> simp [opNew, vmPeek, hlen, hc]
  · intro hrecv hplain hfound harity hasync hgen
    rw [List.getD_eq_getElem st.stack .vnull hlen] at hrecv
    constructor <;>
      simp [opCallMethod, vmPeek, hlen, hrecv, isJsObject, hplain, hfound,
        harity, hasync, hgen]

/-- C4 witness: at exactly 256 frames, a plain CALL of a zero-argument
closure raises "Stack overflow." and does not grow the frame stack, while
OP_NEW on the same state happily pushes a 257th frame. -/
theorem c4_witness :
    (VMState.mk [.vclosure plainFn .vnull] (List.replicate 256 (mkFrame plainFn none))
      [] [] 0 [] false).frames.length = MAX_CALL_FRAMES ∧
    opCall (fun _ _ => .vnull)
      (VMState.mk [.vclosure plainFn .vnull] (List.replicate 256 (mkFrame plainFn none))
        [] [] 0 [] false) 0 =
      (runtimeError
        (VMState.mk [.vclosure plainFn .vnull] (List.replicate 256 (mkFrame plainFn none))
          [] [] 0 [] false) (.vstr "Stack overflow."), .rtError) ∧
    (opNew
      (VMState.mk [.vclosure plainFn .vnull] (List.replicate 256 (mkFrame plainFn none))
        [] [] 0 [] false) 0).1.frames.length = 257 := by
  have h := c4_frame_bound_only_on_call (fun _ _ => .vnull)
    (HostOracle.mk (fun _ _ => none) (fun _ => none) (fun _ _ => none))
    (VMState.mk [.vclosure plainFn .vnull] (List.replicate 256 (mkFrame plainFn none))
      [] [] 0 [] false)
    0 plainFn plainFn .vnull .vnull [] .vnull "m" (by simp)
  refine ⟨by simp [MAX_CALL_FRAMES], (h.1 rfl rfl (by simp [MAX_CALL_FRAMES])).1, ?_⟩
  have h2 := (h.2.1 rfl).1
  simpa using h2

/-- C4 counterexample: a state with exactly 256 call frames on which
OP_NEW of a plain class closure succeeds, raising no error and leaving
257 frames — the frame stack exceeds the claimed 256-frame bound and NEW
never raised "Stack overflow.". -/
theorem c4_new_pushes_257th_frame :
    (opNew (VMState.mk [.vclosure plainFn .vnull]
      (List.replicate 256 (mkFrame plainFn none)) [] [] 0 [] false) 0).1.frames.length = 257 ∧
    (opNew (VMState.mk [.vclosure plainFn .vnull]
      (List.replicate 256 (mkFrame plainFn none)) [] [] 0 [] false) 0).2 = .ok ∧
    (opNew (VMState.mk [.vclosure plainFn .vnull]
      (List.replicate 256 (mkFrame plainFn none)) [] [] 0 [] false) 0).1.hasError = false ∧
    257 > MAX_CALL_FRAMES := by
  refine ⟨?_, ?_, ?_, by decide⟩ <;> simp [opNew, vmPeek, plainFn]

/-- The prototype-chain walk finds a value exactly when some object on the
chain has the property as an own property. -/
theorem protoLookup_isSome_eq_chainHasOwn : ∀ (v : Value) (name : String),
    (protoLookup v name).isSome = chainHasOwn v name
  | .vobj props proto, name => by
    have ih := protoLookup_isSome_eq_chainHasOwn proto name
    cases h : lookupProp props name <;> simp [protoLookup, chainHasOwn, h, ih]
  | .vnull, _ => rfl
  | .vundefined, _ => rfl
  | .vbool _, _ => rfl
  | .vnum _, _ => rfl
  | .vstr _, _ => rfl
  | .varr _, _ => rfl
  | .vclosure _ _, _ => rfl
  | .vfuncObj _, _ => rfl
  | .vpromise _, _ => rfl
  | .vgen _, _ => rfl
  | .vnative _, _ => rfl
  | .vhostFn _, _ => rfl
  | .vhostProps _, _ => rfl
  | .vhostObj _, _ => rfl

/-- C8 (amended): on a VM object, for every property name that is NOT
visible on the host record (the implementation fields `properties`,
`prototype`, `__proto__` and the inherited `Object.prototype` members),
GET_PROP pushes the nearest own property on the prototype chain, receiver
first; it misses to `undefined` exactly when no chain object has the
property — except that an own property whose stored value is `undefined`
also reads as `undefined`.  (Host-visible names short-circuit the chain
walk, see the counterexample.) -/
theorem c8_get_prop_nearest_ancestor
    (nativeGet : String → String → Value) (hostRead : Value → String → Value)
    (props : List (String × Value)) (proto : Value) (p : String)
    (h : jsInVMObj p = false) :
    opGetPropOn nativeGet hostRead (.vobj props proto) p =
      .ok ((protoLookup (.vobj props proto) p).getD .vundefined) ∧
    (protoLookup (.vobj props proto) p = none ↔
      chainHasOwn (.vobj props proto) p = false) ∧
    (opGetPropOn nativeGet hostRead (.vobj props proto) p = .ok .vundefined ↔
      (protoLookup (.vobj props proto) p = none ∨
       protoLookup (.vobj props proto) p = some .vundefined)) := by
  have h1 : opGetPropOn nativeGet hostRead (.vobj props proto) p =
      .ok ((protoLookup (.vobj props proto) p).getD .vundefined) := by
    simp [opGetPropOn, h]
  refine ⟨h1, ?_, ?_⟩
  · have := protoLookup_isSome_eq_chainHasOwn (.vobj props proto) p
    rw [← this]
    cases protoLookup (.vobj props proto) p <;> simp
  · rw [h1]
    cases hpl : protoLookup (.vobj props proto) p <;> simp [hpl]

/-- C8 witness: a property found on the receiver's prototype is returned;
a property found nowhere on the chain reads as undefined. -/
theorem c8_witness :
    jsInVMObj "greet" = false ∧
    opGetPropOn (fun _ _ => .vundefined) (fun _ _ => .vundefined)
      (.vobj [] (.vobj [("greet", .vnum 1)] .vnull)) "greet" = .ok (.vnum 1) ∧
    opGetPropOn (fun _ _ => .vundefined) (fun _ _ => .vundefined)
      (.vobj [] (.vobj [("greet", .vnum 1)] .vnull)) "salut" = .ok .vundefined := by
  have hg := c8_get_prop_nearest_ancestor (fun _ _ => .vundefined) (fun _ _ => .vundefined)
    [] (.vobj [("greet", .vnum 1)] .vnull) "greet" (by decide)
  have hs := c8_get_prop_nearest_ancestor (fun _ _ => .vundefined) (fun _ _ => .vundefined)
    [] (.vobj [("greet", .vnum 1)] .vnull) "salut" (by decide)
  refine ⟨by decide, ?_, ?_⟩
  · rw [hg.1]; rfl
  · rw [hs.1]; rfl

/-- C8 counterexample: reading the property name "prototype" on a VM
object with an empty property record and a null prototype pushes `null`
(the internal prototype field, through the host `in` check) — not
`undefined` — although no object on the prototype chain has that
property.  The claimed "undefined iff no object on the chain has it"
fails. -/
theorem c8_prototype_name_counterexample :
    opGetPropOn (fun _ _ => .vundefined) (fun _ _ => .vundefined)
      (.vobj [] .vnull) "prototype" = .ok .vnull ∧
    chainHasOwn (.vobj [] .vnull) "prototype" = false ∧
    Value.vnull ≠ .vundefined := by
  exact ⟨rfl, rfl, by simp⟩

/-- C7: OP_AWAIT.  (i) With a non-promise on top of the stack the handler
is a synchronous pass-through: value stack, frames — the whole state — are
unchanged and the result is OK.  (ii) With a VM promise on top, the
current frame is popped (the stack keeps the promise) and the result is
YIELD, with both settle handlers registered on that promise for the saved
frame.  (iii) The fulfilment handler's microtask pushes the frame back,
pops the awaited promise and pushes the resolved value.  (iv) The
rejection handler's microtask raises the runtime error from within the
resumed frame: when that frame is async with a live promise, that promise
is rejected with the reason, the VM is errored, and the frame is popped
again. -/
theorem c7_await_semantics
    (st st2 : VMState) (v r reason : Value) (rest ws : List Value)
    (fr : Frame) (fs : List Frame) (apid : Nat)
    (hstk : st.stack = v :: rest) :
    (isVPromise v = false → opAwait st = (st, .ok, none)) ∧
    (∀ pid, v = .vpromise pid → st.frames = fr :: fs →
      opAwait st = ({ st with frames := fs }, .yieldCtl, some (pid, fr))) ∧
    (st2.stack = .vpromise apid :: ws →
      awaitOnFulfilled fr r st2 =
        { st2 with frames := fr :: st2.frames, stack := r :: ws }) ∧
    (fr.func.isAsync = true → fr.asyncPromise = some apid →
      awaitOnRejected fr reason st2 =
        { st2 with hasError := true
                   rejections := st2.rejections ++ [(apid, reason)] }) := by
  refine ⟨?_, ?_, ?_, ?_⟩
  · intro hnp
    cases v <;> simp_all [opAwait, vmPeek, hstk, isVPromise]
  · intro pid hv hfr
    subst hv
    simp [opAwait, vmPeek, hstk, hfr]
  · intro hstk2
    simp [awaitOnFulfilled, vmPop, vmPush, hstk2]
  · intro hasync hap
    have hfind : (fr :: st2.frames).find?
        (fun f => f.func.isAsync && f.asyncPromise.isSome) = some fr := by
      simp [List.find?, hasync, hap]
    simp [awaitOnRejected, runtimeError, hfind, hap]

/-- C7 witness: awaiting the number 1 is a no-op with result OK; awaiting
promise 4 pops the frame and yields; the fulfilment microtask swaps the
promise for the resolved value 5 with the frame restored; the rejection
microtask rejects the resumed async frame's promise 9. -/
theorem c7_witness :
    opAwait (VMState.mk [.vnum 1] [mkFrame asyncFn (some 9)] [] [] 0 [] false) =
      (VMState.mk [.vnum 1] [mkFrame asyncFn (some 9)] [] [] 0 [] false, .ok, none) ∧
    opAwait (VMState.mk [.vpromise 4] [mkFrame asyncFn (some 9)] [] [] 0 [] false) =
      (VMState.mk [.vpromise 4] [] [] [] 0 [] false, .yieldCtl,
        some (4, mkFrame asyncFn (some 9))) ∧
    awaitOnFulfilled (mkFrame asyncFn (some 9)) (.vnum 5)
      (VMState.mk [.vpromise 4] [] [] [] 0 [] false) =
      VMState.mk [.vnum 5] [mkFrame asyncFn (some 9)] [] [] 0 [] false ∧
    awaitOnRejected (mkFrame asyncFn (some 9)) (.vstr "err")
      (VMState.mk [.vpromise 4] [] [] [] 0 [] false) =
      VMState.mk [.vpromise 4] [] [] [] 0 [(9, .vstr "err")] true := by
  have h1 := c7_await_semantics
    (VMState.mk [.vnum 1] [mkFrame asyncFn (some 9)] [] [] 0 [] false)
    (VMState.mk [.vpromise 4] [] [] [] 0 [] false)
    (.vnum 1) (.vnum 5) (.vstr "err") [] [] (mkFrame asyncFn (some 9)) [] 4 rfl
  have h2 := c7_await_semantics
    (VMState.mk [.vpromise 4] [mkFrame asyncFn (some 9)] [] [] 0 [] false)
    (VMState.mk [.vpromise 4] [] [] [] 0 [] false)
    (.vpromise 4) (.vnum 5) (.vstr "err") [] [] (mkFrame asyncFn (some 9)) [] 4 rfl
  refine ⟨h1.1 rfl, h2.2.1 4 rfl rfl, h2.2.2.1 rfl, ?_⟩
  have h9 := c7_await_semantics
    (VMState.mk [.vpromise 4] [mkFrame asyncFn (some 9)] [] [] 0 [] false)
    (VMState.mk [.vpromise 4] [] [] [] 0 [] false)
    (.vpromise 4) (.vnum 5) (.vstr "err") [] [] (mkFrame asyncFn (some 9)) [] 9 rfl
  exact h9.2.2.2 (by simp [mkFrame, asyncFn]) (by simp [mkFrame])

end Hikari
